import Mathlib

/-!
Verification development for the browser text-to-speech front end.

The repository has two React components in `src/components`:
`TextToSpeech` (on-device Web Speech synthesis plus microphone capture)
and `IappTextToSpeech` (remote HTTP synthesis via the iApp endpoint).
This file gives a shallow embedding of their state and event handlers:
React `useState` values and `useRef` cells become fields of an explicit
state record, event handlers become state-transition functions, and the
nondeterministic host facilities (`Date.now()`, `URL.createObjectURL`,
`getUserMedia` outcomes, `axios` responses, `window.confirm` answers)
become explicit environment inputs.  JS numbers that the code only ever
stores and forwards (rate, pitch, volume) are modeled as rationals.
-/

namespace TTSApp

/-- Decimal digit characters of a natural number, most significant first.
Structural reference implementation used to reason about `Nat.repr`. -/
def decDigits (n : Nat) : List Char :=
  if h : n < 10 then [Nat.digitChar n]
  else decDigits (n / 10) ++ [Nat.digitChar (n % 10)]
decreasing_by exact Nat.div_lt_self (by omega) (by omega)

/-- Decimal value of a digit-character list, with accumulator. -/
def decValAux (acc : Nat) : List Char → Nat
  | [] => acc
  | c :: cs => decValAux (acc * 10 + (c.toNat - 48)) cs

theorem decValAux_append (l1 l2 : List Char) (acc : Nat) :
    decValAux acc (l1 ++ l2) = decValAux (decValAux acc l1) l2 := by
  induction l1 generalizing acc with
  | nil => rfl
  | cons c cs ih =>
    rw [List.cons_append]
    show decValAux (acc * 10 + (c.toNat - 48)) (cs ++ l2) = _
    rw [ih]
    rfl

theorem digitChar_val {d : Nat} (h : d < 10) : (Nat.digitChar d).toNat - 48 = d := by
  interval_cases d <;> rfl

theorem toDigitsCore_eq_decDigits :
    ∀ (fuel n : Nat) (ds : List Char), n < fuel →
      Nat.toDigitsCore 10 fuel n ds = decDigits n ++ ds := by
  intro fuel
  induction fuel with
  | zero => intro n ds h; omega
  | succ fuel ih =>
    intro n ds h
    simp only [Nat.toDigitsCore]
    by_cases hdiv : n / 10 = 0
    · have h10 : n < 10 := by omega
      have hmod : n % 10 = n := by omega
      rw [decDigits]
      simp [hdiv, h10, hmod]
    · have h10 : ¬ n < 10 := by omega
      have hfuel : n / 10 < fuel := by omega
      rw [decDigits]
      simp only [hdiv, if_false, dif_neg h10]
      rw [ih (n / 10) (Nat.digitChar (n % 10) :: ds) hfuel]
      simp

theorem repr_eq_decDigits (n : Nat) : Nat.repr n = (decDigits n).asString := by
  unfold Nat.repr Nat.toDigits
  rw [toDigitsCore_eq_decDigits (n + 1) n [] (Nat.lt_succ_self n)]
  simp

theorem decValAux_decDigits (n : Nat) :
    ∀ acc, decValAux acc (decDigits n) = acc * 10 ^ (decDigits n).length + n := by
  induction n using Nat.strong_induction_on with
  | _ n ih =>
    intro acc
    by_cases h : n < 10
    · rw [decDigits, dif_pos h]
      have hval : decValAux acc [Nat.digitChar n] = acc * 10 + n := by
        show acc * 10 + ((Nat.digitChar n).toNat - 48) = acc * 10 + n
        rw [digitChar_val h]
      rw [hval]
      simp
    · have hlt : n / 10 < n := by omega
      have hmod : n % 10 < 10 := by omega
      rw [decDigits, dif_neg h, decValAux_append]
      have hone : ∀ a : Nat, decValAux a [Nat.digitChar (n % 10)] = a * 10 + n % 10 := by
        intro a
        show a * 10 + ((Nat.digitChar (n % 10)).toNat - 48) = a * 10 + n % 10
        rw [digitChar_val hmod]
      rw [hone, ih (n / 10) hlt]
      have hdm : n / 10 * 10 + n % 10 = n := by omega
      have hlen : (decDigits (n / 10) ++ [Nat.digitChar (n % 10)]).length
          = (decDigits (n / 10)).length + 1 := by simp
      rw [hlen]
      calc (acc * 10 ^ (decDigits (n / 10)).length + n / 10) * 10 + n % 10
          = acc * 10 ^ ((decDigits (n / 10)).length + 1) + (n / 10 * 10 + n % 10) := by
            ring
        _ = acc * 10 ^ ((decDigits (n / 10)).length + 1) + n := by rw [hdm]

theorem decDigits_inj {a b : Nat} (h : decDigits a = decDigits b) : a = b := by
  have ha := decValAux_decDigits a 0
  have hb := decValAux_decDigits b 0
  rw [h] at ha
  simp only [Nat.zero_mul, Nat.zero_add] at ha hb
  omega

theorem nat_repr_inj {a b : Nat} (h : Nat.repr a = Nat.repr b) : a = b := by
  rw [repr_eq_decDigits, repr_eq_decDigits] at h
  have hdata := congrArg String.data h
  simp only [List.asString] at hdata
  exact decDigits_inj hdata

/-- Identifier of a produced artifact: `` `rec-${Date.now()}` `` in both
components, with `Date.now()` modeled as the `now : Nat` input. -/
def recId (now : Nat) : String := "rec-" ++ Nat.repr now

theorem recId_inj {t1 t2 : Nat} (h : t1 ≠ t2) : recId t1 ≠ recId t2 := by
  intro he
  apply h
  apply nat_repr_inj
  have hdata := congrArg String.data he
  simp only [recId, String.data_append] at hdata
  exact String.ext (List.append_cancel_left hdata)

/-- The registry update `setRecordings(prev => [newRecording, ...prev])`,
shared verbatim by both components. -/
def pushRecording {α : Type} (r : α) (prev : List α) : List α := r :: prev

/-- Folding a sequence of completions into the registry, in order. -/
def runAdds {α : Type} (items : List α) (init : List α) : List α :=
  items.foldl (fun reg r => pushRecording r reg) init

/-- Char-list matching: does `needle` occur at the front of `hay`? -/
def matchesAt : List Char → List Char → Bool
  | [], _ => true
  | _ :: _, [] => false
  | n :: ns, h :: hs => n == h && matchesAt ns hs

/-- JS `String.prototype.includes`: substring containment. -/
def strContains (hay needle : String) : Bool :=
  (List.range (hay.data.length + 1)).any fun i => matchesAt needle.data (hay.data.drop i)

/-- JS `String.prototype.toLowerCase`, character by character (the
language tags at issue are ASCII). -/
def toLowerCase (s : String) : String := ⟨s.data.map Char.toLower⟩

namespace WebSpeech

/-- The `Voice` interface of `TextToSpeech.tsx`. -/
structure Voice where
  name : String
  lang : String
  voiceURI : String
deriving Repr, DecidableEq

/-- The `SpeechOptions` interface: optional fields are `Option`-valued. -/
structure SpeechOptions where
  text : String
  rate : Option Rat := none
  pitch : Option Rat := none
  volume : Option Rat := none
  lang : Option String := none

/-- A `SpeechSynthesisUtterance` object.  The field defaults are the Web
Speech platform defaults that `new SpeechSynthesisUtterance(text)` gives a
freshly constructed object: rate 1, pitch 1, volume 1, empty language tag,
no explicit voice. -/
structure SpeechSynthesisUtterance where
  text : String
  rate : Rat := 1.0
  pitch : Rat := 1.0
  volume : Rat := 1.0
  lang : String := ""
  voice : Option Voice := none
deriving Repr, DecidableEq

/-- `new SpeechSynthesisUtterance(text)`. -/
def mkUtterance (text : String) : SpeechSynthesisUtterance := { text := text }

/-- The module-level helper `convertTextToSpeech(options)`: builds an
utterance and fills unspecified fields with `??`-defaults. -/
def convertTextToSpeech (options : SpeechOptions) : SpeechSynthesisUtterance :=
  { mkUtterance options.text with
    rate := options.rate.getD 1.0
    pitch := options.pitch.getD 1.0
    volume := options.volume.getD 1.0
    lang := options.lang.getD "th-TH" }

/-- The `RecordedItem` interface of `TextToSpeech.tsx`. -/
structure RecordedItem where
  id : String
  text : String
  url : String
  timestamp : Nat
deriving Repr, DecidableEq

/-- `MediaRecorder.state` values. -/
inductive MRState
  | inactive
  | recording
  | paused
deriving Repr, DecidableEq

/-- The `MediaRecorder` held in `mediaRecorderRef`, together with the
render-time `text` value captured by its `onstop` closure. -/
structure MediaRecorder where
  state : MRState
  capturedText : String
deriving Repr, DecidableEq

/-- Component state of `TextToSpeech`: the `useState` values plus the
`useRef` cells (`synthAvailable` models `synth.current !== null`,
`audioContext` models `audioContextRef.current !== null`). -/
structure TTSState where
  text : String
  voices : List Voice
  selectedVoice : String
  isSpeaking : Bool
  isThaiVoice : Bool
  isRecording : Bool
  hasMicPermission : Option Bool
  rate : Rat
  pitch : Rat
  recordings : List RecordedItem
  synthAvailable : Bool
  mediaRecorder : Option MediaRecorder
  audioChunks : List Nat
  recordingPrepared : Bool
  audioContext : Bool
deriving Repr, DecidableEq

/-- Language filter in `getVoices`: keep Thai, English and Korean voices,
testing the lowercased tag for the three substrings. -/
def supportedVoiceLang (v : Voice) : Bool :=
  let lang := toLowerCase v.lang
  strContains lang "th" || strContains lang "en" || strContains lang "ko"

/-- The `getVoices` callback: `synth.current?.getVoices() || []` is the
`catalog` input (`none` models an absent catalog), then filter, then pick
a default: the first filtered voice, overridden by the first Thai voice
(this second test, `v.lang.includes('th')`, is case-sensitive in the
source). -/
def getVoices (catalog : Option (List Voice)) (s : TTSState) : TTSState :=
  let availableVoices := catalog.getD []
  let filteredVoices := availableVoices.filter supportedVoiceLang
  let s1 := { s with voices := filteredVoices }
  match filteredVoices with
  | [] => s1
  | v0 :: _ =>
    let s2 := { s1 with selectedVoice := v0.voiceURI }
    match filteredVoices.find? fun v => strContains v.lang "th" with
    | some thaiVoice => { s2 with selectedVoice := thaiVoice.voiceURI, isThaiVoice := true }
    | none => s2

/-- Host-environment outcomes consumed by the capture path. -/
structure CaptureEnv where
  permissionGranted : Bool
  audioContextOk : Bool
  streamOk : Bool
  streamErrMsg : String
  confirmSpeakWithoutRecording : Bool

def micDeniedAlert : String :=
  "ไม่สามารถบันทึกเสียงได้เนื่องจากไม่ได้รับอนุญาตให้ใช้ไมโครโฟน"

def prepareFailedAlert : String := "ไม่สามารถเตรียมการบันทึกเสียงได้"

def startFailedAlert (msg : String) : String := "ไม่สามารถเริ่มบันทึกเสียงได้: " ++ msg

/-- `prepareRecording`: idempotent; lazily constructs the audio context
(construction may throw, modeled by `env.audioContextOk`). -/
def prepareRecording (env : CaptureEnv) (s : TTSState) : Bool × TTSState :=
  if s.recordingPrepared then (true, s)
  else if s.audioContext || env.audioContextOk then
    (true, { s with audioContext := true, recordingPrepared := true })
  else (false, s)

/-- `requestMicrophonePermission`: on grant, records the permission and
runs `prepareRecording`, ignoring its result; on denial records the
denial and returns `false`. -/
def requestMicrophonePermission (env : CaptureEnv) (s : TTSState) : Bool × TTSState :=
  if env.permissionGranted then
    let s1 := { s with hasMicPermission := some true }
    (true, (prepareRecording env s1).2)
  else
    (false, { s with hasMicPermission := some false })

/-- Final step of `startRecording`: open the stream, create the recorder
(whose `onstop` closure captures the current `text`), clear the chunk
buffer and start recording. -/
def startRecordingStream (env : CaptureEnv) (s : TTSState) : Bool × TTSState × List String :=
  if env.streamOk then
    (true,
      { s with
        mediaRecorder := some { state := .recording, capturedText := s.text }
        audioChunks := []
        isRecording := true },
      [])
  else (false, s, [startFailedAlert env.streamErrMsg])

/-- Middle step of `startRecording`: ensure `prepareRecording` ran. -/
def startRecordingPrepared (env : CaptureEnv) (s : TTSState) : Bool × TTSState × List String :=
  if s.recordingPrepared then startRecordingStream env s
  else
    match prepareRecording env s with
    | (false, s1) => (false, s1, [prepareFailedAlert])
    | (true, s1) => startRecordingStream env s1

/-- `startRecording`: the early-return structure of the source is modeled
by the chain `startRecording → startRecordingPrepared →
`startRecordingStream`.  The JS guard `if (!hasMicPermission)` treats
both `null` and `false` as falsy.  The third component collects the
`alert` messages shown. -/
def startRecording (env : CaptureEnv) (s : TTSState) : Bool × TTSState × List String :=
  if s.hasMicPermission = some true then startRecordingPrepared env s
  else
    match requestMicrophonePermission env s with
    | (false, s1) => (false, s1, [micDeniedAlert])
    | (true, s1) => startRecordingPrepared env s1

/-- Utterance construction inside `handleSpeak`: the Thai-voice branch
goes through `convertTextToSpeech` (passing the selected voice's tag, if
found, as `lang`); the other branch constructs a bare utterance and sets
only `rate` and `pitch`.  Finally the selected voice object, if found, is
assigned to `utterance.voice`. -/
def buildUtterance (s : TTSState) : SpeechSynthesisUtterance :=
  let u :=
    if s.isThaiVoice then
      convertTextToSpeech
        { text := s.text
          rate := some s.rate
          pitch := some s.pitch
          lang := (s.voices.find? fun v => v.voiceURI == s.selectedVoice).map Voice.lang }
    else
      { mkUtterance s.text with rate := s.rate, pitch := s.pitch }
  match s.voices.find? fun v => v.voiceURI == s.selectedVoice with
  | some v => { u with voice := some v }
  | none => u

/-- Result of a `handleSpeak` call: the next state, the alerts shown, the
utterances handed to `synth.current.speak`, and the `recordingStarted`
value captured by the utterance's `onend` closure. -/
structure SpeakResult where
  state : TTSState
  alerts : List String
  spoken : List SpeechSynthesisUtterance
  recordingStarted : Bool
deriving Repr, DecidableEq

/-- `handleSpeak`: guarded by `synth.current && text && !isSpeaking`; if
not already recording it attempts `startRecording`; on capture failure it
asks `window.confirm` (modeled by `env.confirmSpeakWithoutRecording`) and
aborts when declined; otherwise it builds the utterance, sets
`isSpeaking` and speaks. -/
def handleSpeak (env : CaptureEnv) (s : TTSState) : SpeakResult :=
  if s.synthAvailable && !(s.text == "") && !s.isSpeaking then
    let step : Bool × TTSState × List String :=
      if s.isRecording then (s.isRecording, s, [])
      else startRecording env s
    match step with
    | (recordingStarted, s1, alerts) =>
      if !recordingStarted && !env.confirmSpeakWithoutRecording then
        { state := s1, alerts := alerts, spoken := [], recordingStarted := recordingStarted }
      else
        { state := { s1 with isSpeaking := true }
          alerts := alerts
          spoken := [buildUtterance s]
          recordingStarted := recordingStarted }
  else { state := s, alerts := [], spoken := [], recordingStarted := s.isRecording }

/-- Host inputs consumed when a recorder is finalized: `Date.now()` and
the object URL created for the assembled blob. -/
structure StopEnv where
  now : Nat
  audioUrl : String

/-- The `mediaRecorder.onstop` handler: assemble the buffered chunks into
a blob, create an object URL, prepend a new `RecordedItem` to the
registry, stop the stream tracks and clear `isRecording`.  The two
`Date.now()` reads in the handler are modeled by the single `now`. -/
def mediaRecorderOnStop (env : StopEnv) (rec : MediaRecorder) (s : TTSState) : TTSState :=
  { s with
    recordings :=
      pushRecording
        { id := recId env.now
          text := rec.capturedText
          url := env.audioUrl
          timestamp := env.now }
        s.recordings
    isRecording := false
    mediaRecorder := some { rec with state := .inactive } }

/-- The utterance `onend` closure: clear `isSpeaking`, and stop the
recorder (which fires `onstop`) when this speak call had started a
recording and the recorder is still recording. -/
def utteranceOnEnd (recordingStarted : Bool) (env : StopEnv) (s : TTSState) : TTSState :=
  let s1 := { s with isSpeaking := false }
  match s1.mediaRecorder with
  | some rec =>
    if recordingStarted && (rec.state == .recording) then mediaRecorderOnStop env rec s1
    else s1
  | none => s1

/-- `handleCancel`: if the synthesis handle exists, cancel synthesis,
clear `isSpeaking`, and stop a still-recording recorder (firing its
`onstop`). -/
def handleCancel (env : StopEnv) (s : TTSState) : TTSState :=
  if s.synthAvailable then
    let s1 := { s with isSpeaking := false }
    match s1.mediaRecorder with
    | some rec =>
      if s1.isRecording && (rec.state == .recording) then mediaRecorderOnStop env rec s1
      else s1
    | none => s1
  else s

/-- `deleteRecording(id)`: `prev.filter(r => r.id !== id)`. -/
def deleteRecording (rid : String) (prev : List RecordedItem) : List RecordedItem :=
  prev.filter fun r => r.id != rid

/-- `deleteRecording` at the component level: only `recordings` changes. -/
def deleteRecordingState (rid : String) (s : TTSState) : TTSState :=
  { s with recordings := deleteRecording rid s.recordings }

end WebSpeech

namespace Iapp

/-- The `VoiceType` union of `IappTextToSpeech.tsx`. -/
inductive VoiceType
  | kaitom
  | cee
deriving Repr, DecidableEq

/-- The string value of a `VoiceType` (the TS values are the strings
themselves). -/
def VoiceType.str : VoiceType → String
  | .kaitom => "kaitom"
  | .cee => "cee"

/-- The `RecordedItem` interface of `IappTextToSpeech.tsx` (adds
`voiceType`). -/
structure RecordedItem where
  id : String
  text : String
  url : String
  timestamp : Nat
  voiceType : VoiceType
deriving Repr, DecidableEq

/-- Component state of `IappTextToSpeech`. -/
structure IappState where
  text : String
  apiKey : String
  isLoading : Bool
  recordings : List RecordedItem
  selectedVoice : VoiceType
deriving Repr, DecidableEq

/-- `getApiUrl()`: the style-specific endpoint URL. -/
def getApiUrl (s : IappState) : String :=
  "https://api.iapp.co.th/thai-tts-" ++ s.selectedVoice.str ++ "/tts"

/-- The axios request configuration built by `convertTextToSpeech`. -/
structure HttpRequest where
  method : String
  url : String
  textParam : String
  apikeyHeader : String
  responseType : String
deriving Repr, DecidableEq

def mkRequest (s : IappState) : HttpRequest :=
  { method := "get"
    url := getApiUrl s
    textParam := s.text
    apikeyHeader := s.apiKey
    responseType := "arraybuffer" }

/-- Host inputs of one remote-synthesis call: the axios outcome (error
message, or raw audio bytes), the object URL created for the response
blob, and `Date.now()`. -/
structure FetchEnv where
  response : Except String (List Nat)
  audioUrl : String
  now : Nat

def errorAlert : String :=
  "ไม่สามารถแปลงข้อความเป็นเสียงได้ โปรดตรวจสอบ API key หรือการเชื่อมต่ออินเทอร์เน็ต"

/-- The artifact built on a successful response. -/
def mkRecordedItem (now : Nat) (text url : String) (vt : VoiceType) : RecordedItem :=
  { id := recId now, text := text, url := url, timestamp := now, voiceType := vt }

/-- `convertTextToSpeech` of `IappTextToSpeech`: no-op on empty text;
otherwise issue exactly one request; on success wrap the bytes and
prepend an artifact, on error show the alert; `finally` clears
`isLoading`.  Returns (next state, requests issued, alerts shown). -/
def convertTextToSpeech (env : FetchEnv) (s : IappState) :
    IappState × List HttpRequest × List String :=
  if s.text == "" then (s, [], [])
  else
    let req := mkRequest s
    match env.response with
    | .ok _data =>
      ({ s with
          recordings :=
            pushRecording (mkRecordedItem env.now s.text env.audioUrl s.selectedVoice)
              s.recordings
          isLoading := false },
        [req], [])
    | .error _ => ({ s with isLoading := false }, [req], [errorAlert])

/-- `deleteRecording(id)` of `IappTextToSpeech`. -/
def deleteRecording (rid : String) (s : IappState) : IappState :=
  { s with recordings := s.recordings.filter fun r => r.id != rid }

end Iapp

/-! Helper lemmas shared by the claim theorems. -/

theorem length_filter_not_add_countP {α : Type} (p : α → Bool) (l : List α) :
    (l.filter fun a => !p a).length + l.countP p = l.length := by
  induction l with
  | nil => rfl
  | cons a l ih => by_cases h : p a <;> simp [List.filter_cons, List.countP_cons, h] <;> omega

theorem runAdds_eq {α : Type} (items init : List α) :
    runAdds items init = items.reverse ++ init := by
  induction items generalizing init with
  | nil => rfl
  | cons a as ih =>
    show runAdds as (pushRecording a init) = _
    rw [ih]
    simp [pushRecording]

/-- Selection policy as the specification words it: if any filtered voice
matches the primary (Thai) language, that voice becomes the default,
otherwise the first filtered voice; an empty filtered list leaves the
previous selection. -/
def specVoiceSelectionPolicy (filtered : List WebSpeech.Voice) (prevSelected : String) :
    String :=
  match filtered.find? (fun v => strContains v.lang "th") with
  | some primary => primary.voiceURI
  | none =>
    match filtered with
    | [] => prevSelected
    | v0 :: _ => v0.voiceURI

/-! Concrete states and environments used by witnesses and
counterexamples. -/

def demoVoiceCatalog : List WebSpeech.Voice :=
  [⟨"Alice", "en-US", "uriA"⟩, ⟨"Som", "th-TH", "uriB"⟩, ⟨"Hans", "de-DE", "uriC"⟩]

def demoBaseState : WebSpeech.TTSState :=
  { text := "hello"
    voices := []
    selectedVoice := ""
    isSpeaking := false
    isThaiVoice := false
    isRecording := false
    hasMicPermission := some true
    rate := 1.0
    pitch := 1.0
    recordings := []
    synthAvailable := true
    mediaRecorder := none
    audioChunks := []
    recordingPrepared := false
    audioContext := false }

def c4NonThaiState : WebSpeech.TTSState :=
  { demoBaseState with
    text := "สวัสดี"
    rate := 1.5
    pitch := 1.1
    voices := demoVoiceCatalog
    selectedVoice := "uriA"
    isThaiVoice := false }

def demoRecorder : WebSpeech.MediaRecorder := { state := .recording, capturedText := "hello" }

def demoRecordings : List WebSpeech.RecordedItem :=
  [⟨"rec-1", "a", "u", 1⟩, ⟨"rec-2", "b", "v", 2⟩]

def demoRecordingState : WebSpeech.TTSState :=
  { demoBaseState with
    isSpeaking := true
    isRecording := true
    mediaRecorder := some demoRecorder
    recordings := demoRecordings }

def demoStopEnv : WebSpeech.StopEnv := { now := 99, audioUrl := "blob:z" }

def micDeniedState : WebSpeech.TTSState := { demoBaseState with hasMicPermission := some false }

def denyCaptureEnv : WebSpeech.CaptureEnv :=
  { permissionGranted := false
    audioContextOk := true
    streamOk := true
    streamErrMsg := "m"
    confirmSpeakWithoutRecording := false }

def iappDemoState : Iapp.IappState :=
  { text := "สวัสดี"
    apiKey := "demo"
    isLoading := false
    recordings := []
    selectedVoice := .kaitom }

def emptyTextIappState : Iapp.IappState := { iappDemoState with text := "" }

def fetchOkEnv (n : Nat) : Iapp.FetchEnv :=
  { response := .ok [1], audioUrl := "blob:ok", now := n }

def fetchErrEnv : Iapp.FetchEnv :=
  { response := .error "HTTP 401", audioUrl := "blob:none", now := 7 }

/-! Claim theorems. -/

/-- C1: `deleteRecording(id)` strictly decreases the registry length by
exactly one when exactly one artifact with identifier `id` is present,
and leaves the registry unchanged when no artifact has identifier `id`. -/
theorem deleteRecording_length_spec (rid : String) (l : List WebSpeech.RecordedItem) :
    (l.countP (fun r => r.id == rid) = 1 →
      (WebSpeech.deleteRecording rid l).length = l.length - 1) ∧
    (l.countP (fun r => r.id == rid) = 0 → WebSpeech.deleteRecording rid l = l) := by
  have key : (WebSpeech.deleteRecording rid l).length + l.countP (fun r => r.id == rid) =
      l.length := by
    have h := length_filter_not_add_countP (fun r => r.id == rid) l
    simpa [WebSpeech.deleteRecording, bne] using h
  constructor
  · intro h1
    omega
  · intro h0
    apply List.filter_eq_self.mpr
    intro r hr
    have := (List.countP_eq_zero.mp h0) r hr
    simpa [bne] using this

theorem deleteRecording_length_witness :
    ((WebSpeech.deleteRecording "rec-1" demoRecordings).length = demoRecordings.length - 1) ∧
    (WebSpeech.deleteRecording "rec-9" demoRecordings = demoRecordings) :=
  ⟨(deleteRecording_length_spec "rec-1" demoRecordings).1 (by decide),
   (deleteRecording_length_spec "rec-9" demoRecordings).2 (by decide)⟩

/-- C2: every registration prepends at the head: the capture `onstop`
handler and a successful remote synthesis both produce
`newItem :: previous`, and folding any sequence of completions over the
registry puts the artifact of the most recent completion at index 0
(registry = reversed completion sequence, newest first). -/
theorem registry_prepend_spec :
    (∀ (env : WebSpeech.StopEnv) (rec : WebSpeech.MediaRecorder) (s : WebSpeech.TTSState),
      (WebSpeech.mediaRecorderOnStop env rec s).recordings =
        { id := recId env.now, text := rec.capturedText, url := env.audioUrl,
          timestamp := env.now } :: s.recordings) ∧
    (∀ (env : Iapp.FetchEnv) (s : Iapp.IappState) (data : List Nat),
      s.text ≠ "" → env.response = .ok data →
      (Iapp.convertTextToSpeech env s).1.recordings =
        Iapp.mkRecordedItem env.now s.text env.audioUrl s.selectedVoice :: s.recordings) ∧
    (∀ (items init : List Iapp.RecordedItem), runAdds items init = items.reverse ++ init) ∧
    (∀ (items init : List Iapp.RecordedItem) (r : Iapp.RecordedItem),
      items.getLast? = some r → (runAdds items init).head? = some r) := by
  refine ⟨fun env rec s => rfl, ?_, runAdds_eq, ?_⟩
  · intro env s data ht hok
    have h0 : (s.text == "") = false := beq_eq_false_iff_ne.mpr ht
    simp [Iapp.convertTextToSpeech, h0, hok, pushRecording]
  · intro items init r h
    rw [runAdds_eq, List.head?_append, List.head?_reverse, h]
    rfl

theorem registry_prepend_witness :
    (Iapp.convertTextToSpeech (fetchOkEnv 1000) iappDemoState).1.recordings =
      Iapp.mkRecordedItem 1000 "สวัสดี" "blob:ok" .kaitom :: iappDemoState.recordings :=
  registry_prepend_spec.2.1 (fetchOkEnv 1000) iappDemoState [1] (by decide) rfl

/-- C3 counterexample: identifiers are NOT always unique within a
session — two sequential remote-synthesis completions that happen in the
same millisecond (`Date.now()` returns 1000 both times) register two
artifacts with the same identifier `rec-1000`. -/
theorem duplicate_identifier_counterexample :
    ((Iapp.convertTextToSpeech (fetchOkEnv 1000)
        (Iapp.convertTextToSpeech (fetchOkEnv 1000) iappDemoState).1).1.recordings.map
      Iapp.RecordedItem.id) = ["rec-1000", "rec-1000"] := by decide

/-- C3 amended: identifiers are `rec-` followed by the decimal creation
timestamp in milliseconds (for capture artifacts and remote artifacts
alike), and two artifacts receive distinct identifiers whenever their
creation timestamps differ; the code does not guard against two
completions in the same millisecond, which receive equal identifiers. -/
theorem recording_identifier_spec (t1 t2 : Nat) (x1 u1 x2 u2 : String)
    (v1 v2 : Iapp.VoiceType) :
    (Iapp.mkRecordedItem t1 x1 u1 v1).id = "rec-" ++ Nat.repr t1 ∧
    (Iapp.mkRecordedItem t1 x1 u1 v1).timestamp = t1 ∧
    (∀ (env : WebSpeech.StopEnv) (rec : WebSpeech.MediaRecorder) (s : WebSpeech.TTSState),
      ((WebSpeech.mediaRecorderOnStop env rec s).recordings.head?.map
          WebSpeech.RecordedItem.id) = some ("rec-" ++ Nat.repr env.now) ∧
      ((WebSpeech.mediaRecorderOnStop env rec s).recordings.head?.map
          WebSpeech.RecordedItem.timestamp) = some env.now) ∧
    (t1 ≠ t2 → (Iapp.mkRecordedItem t1 x1 u1 v1).id ≠ (Iapp.mkRecordedItem t2 x2 u2 v2).id) := by
  refine ⟨rfl, rfl, fun env rec s => ⟨rfl, rfl⟩, ?_⟩
  intro hne
  simpa [Iapp.mkRecordedItem] using recId_inj hne

theorem recording_identifier_witness :
    (Iapp.mkRecordedItem 1000 "a" "u" .kaitom).id ≠ (Iapp.mkRecordedItem 1001 "b" "v" .cee).id :=
  (recording_identifier_spec 1000 1001 "a" "u" "b" "v" .kaitom .cee).2.2.2 (by decide)

/-- C4 counterexample: with no Thai voice selected and rate 1.5 /
pitch 1.1, the utterance carries the user-selected rate and pitch, but
its language is NOT the designated default locale `th-TH` — the non-Thai
branch never sets `lang`, so it stays at the platform default (empty). -/
theorem utterance_lang_counterexample :
    (WebSpeech.buildUtterance c4NonThaiState).rate = 1.5 ∧
    (WebSpeech.buildUtterance c4NonThaiState).pitch = 1.1 ∧
    (WebSpeech.buildUtterance c4NonThaiState).lang ≠ "th-TH" :=
  ⟨rfl, rfl, by decide⟩

/-- C4 amended: the synthesis request always carries exactly the
user-selected rate and pitch (volume stays 1.0); the helper
`convertTextToSpeech` fills unspecified fields with rate 1.0, pitch 1.0,
volume 1.0 and language `th-TH`; when a Thai voice is selected the
request's language is the selected voice's tag (falling back to `th-TH`
only if the lookup fails), and when no Thai voice is selected the
language field is left at the platform default (empty), not `th-TH`. -/
theorem buildUtterance_spec (s : WebSpeech.TTSState) :
    (WebSpeech.buildUtterance s).text = s.text ∧
    (WebSpeech.buildUtterance s).rate = s.rate ∧
    (WebSpeech.buildUtterance s).pitch = s.pitch ∧
    (WebSpeech.buildUtterance s).volume = 1.0 ∧
    (∀ t, WebSpeech.convertTextToSpeech { text := t } =
      { text := t, rate := 1.0, pitch := 1.0, volume := 1.0, lang := "th-TH",
        voice := none }) ∧
    (s.isThaiVoice = true →
      (WebSpeech.buildUtterance s).lang =
        ((s.voices.find? fun v => v.voiceURI == s.selectedVoice).map
            WebSpeech.Voice.lang).getD "th-TH") ∧
    (s.isThaiVoice = false → (WebSpeech.buildUtterance s).lang = "") := by
  cases hthai : s.isThaiVoice <;>
    cases hfind : s.voices.find? fun v => v.voiceURI == s.selectedVoice <;>
      simp [WebSpeech.buildUtterance, WebSpeech.convertTextToSpeech, WebSpeech.mkUtterance,
        hthai, hfind]

theorem buildUtterance_witness :
    (WebSpeech.buildUtterance c4NonThaiState).lang = "" :=
  (buildUtterance_spec c4NonThaiState).2.2.2.2.2.2 rfl

/-- C5: the voice catalog adapter keeps exactly the host voices whose
lowercased language tag contains `th`, `en` or `ko`; the selected default
follows the spec's policy (first Thai-matching voice, else first filtered
voice, else unchanged); an absent or empty catalog yields an empty list
and changes no default. -/
theorem getVoices_spec (catalog : Option (List WebSpeech.Voice)) (s : WebSpeech.TTSState) :
    ((WebSpeech.getVoices catalog s).voices =
      (catalog.getD []).filter WebSpeech.supportedVoiceLang) ∧
    (∀ v, v ∈ (WebSpeech.getVoices catalog s).voices ↔
      v ∈ catalog.getD [] ∧ WebSpeech.supportedVoiceLang v = true) ∧
    ((WebSpeech.getVoices catalog s).selectedVoice =
      specVoiceSelectionPolicy ((catalog.getD []).filter WebSpeech.supportedVoiceLang)
        s.selectedVoice) ∧
    (catalog.getD [] = [] →
      (WebSpeech.getVoices catalog s).voices = [] ∧
      (WebSpeech.getVoices catalog s).selectedVoice = s.selectedVoice ∧
      (WebSpeech.getVoices catalog s).isThaiVoice = s.isThaiVoice) := by
  have hv : (WebSpeech.getVoices catalog s).voices =
      (catalog.getD []).filter WebSpeech.supportedVoiceLang := by
    simp only [WebSpeech.getVoices]
    cases hfil : (catalog.getD []).filter WebSpeech.supportedVoiceLang with
    | nil => rfl
    | cons v0 rest =>
      cases hfind : (v0 :: rest).find? fun v => strContains v.lang "th" <;> simp [hfind]
  refine ⟨hv, ?_, ?_, ?_⟩
  · intro v
    rw [hv, List.mem_filter]
  · simp only [WebSpeech.getVoices, specVoiceSelectionPolicy]
    cases hfil : (catalog.getD []).filter WebSpeech.supportedVoiceLang with
    | nil => rfl
    | cons v0 rest =>
      cases hfind : (v0 :: rest).find? fun v => strContains v.lang "th" <;> simp [hfind]
  · intro hempty
    simp [WebSpeech.getVoices, hempty]

theorem getVoices_witness :
    (WebSpeech.getVoices none demoBaseState).voices = [] ∧
    (WebSpeech.getVoices none demoBaseState).selectedVoice = demoBaseState.selectedVoice :=
  ⟨((getVoices_spec none demoBaseState).2.2.2 rfl).1,
   ((getVoices_spec none demoBaseState).2.2.2 rfl).2.1⟩

/-- C6: canceling mid-synthesis (the synthesis handle exists) always
clears `isSpeaking`, and when a capture session is open (`isRecording`
with a recorder in the `recording` state) the buffered capture is
finalized into an artifact prepended to the registry. -/
theorem handleCancel_spec (env : WebSpeech.StopEnv) (s : WebSpeech.TTSState)
    (hsynth : s.synthAvailable = true) :
    (WebSpeech.handleCancel env s).isSpeaking = false ∧
    (∀ rec, s.mediaRecorder = some rec → s.isRecording = true → rec.state = .recording →
      (WebSpeech.handleCancel env s).recordings =
        pushRecording
          { id := recId env.now, text := rec.capturedText, url := env.audioUrl,
            timestamp := env.now } s.recordings ∧
      (WebSpeech.handleCancel env s).isRecording = false) := by
  constructor
  · simp only [WebSpeech.handleCancel, hsynth, if_true]
    cases hm : s.mediaRecorder with
    | none => rfl
    | some rec =>
      by_cases hcond : s.isRecording && (rec.state == WebSpeech.MRState.recording) <;>
        simp [WebSpeech.mediaRecorderOnStop, hcond]
  · intro rec hm hrec hstate
    simp [WebSpeech.handleCancel, hsynth, hm, hrec, hstate, WebSpeech.mediaRecorderOnStop]

theorem handleCancel_witness :
    (WebSpeech.handleCancel demoStopEnv demoRecordingState).isSpeaking = false ∧
    (WebSpeech.handleCancel demoStopEnv demoRecordingState).recordings =
      pushRecording
        { id := recId 99, text := "hello", url := "blob:z", timestamp := 99 }
        demoRecordingState.recordings :=
  ⟨(handleCancel_spec demoStopEnv demoRecordingState rfl).1,
   ((handleCancel_spec demoStopEnv demoRecordingState rfl).2 demoRecorder rfl rfl rfl).1⟩

/-- C7: a failed remote synthesis call issues exactly one request (no
retry), surfaces exactly the blocking alert, leaves the registry and the
rest of the component state unchanged, and resets the loading flag. -/
theorem convert_error_spec (env : Iapp.FetchEnv) (s : Iapp.IappState) (err : String)
    (htext : s.text ≠ "") (herr : env.response = .error err) :
    (Iapp.convertTextToSpeech env s).2.1 = [Iapp.mkRequest s] ∧
    (Iapp.convertTextToSpeech env s).2.2 = [Iapp.errorAlert] ∧
    (Iapp.convertTextToSpeech env s).1.recordings = s.recordings ∧
    (Iapp.convertTextToSpeech env s).1.isLoading = false ∧
    (Iapp.convertTextToSpeech env s).1.text = s.text ∧
    (Iapp.convertTextToSpeech env s).1.apiKey = s.apiKey ∧
    (Iapp.convertTextToSpeech env s).1.selectedVoice = s.selectedVoice := by
  have h0 : (s.text == "") = false := beq_eq_false_iff_ne.mpr htext
  simp [Iapp.convertTextToSpeech, h0, herr]

theorem convert_error_witness :
    (Iapp.convertTextToSpeech fetchErrEnv iappDemoState).2.2 = [Iapp.errorAlert] ∧
    (Iapp.convertTextToSpeech fetchErrEnv iappDemoState).1.recordings =
      iappDemoState.recordings :=
  ⟨(convert_error_spec fetchErrEnv iappDemoState "HTTP 401" (by decide) rfl).2.1,
   (convert_error_spec fetchErrEnv iappDemoState "HTTP 401" (by decide) rfl).2.2.1⟩

/-- C8: with microphone authorization denied, the capture attempt returns
failure after showing the denial alert and adds nothing to the registry;
a subsequent speak request speaks only when the user confirms the
speak-without-recording prompt (declining aborts it entirely), and in the
confirmed degraded path exactly one utterance is spoken and no artifact
is ever registered, including after the utterance completes. -/
theorem mic_denied_flow_spec (env : WebSpeech.CaptureEnv) (env2 : WebSpeech.StopEnv)
    (s : WebSpeech.TTSState)
    (hmic : s.hasMicPermission ≠ some true) (hdeny : env.permissionGranted = false)
    (hrec : s.isRecording = false) (hsynth : s.synthAvailable = true)
    (htext : s.text ≠ "") (hspeak : s.isSpeaking = false) :
    (WebSpeech.startRecording env s).1 = false ∧
    (WebSpeech.startRecording env s).2.2 = [WebSpeech.micDeniedAlert] ∧
    (WebSpeech.startRecording env s).2.1.recordings = s.recordings ∧
    (env.confirmSpeakWithoutRecording = false →
      (WebSpeech.handleSpeak env s).spoken = [] ∧
      (WebSpeech.handleSpeak env s).state.isSpeaking = false ∧
      (WebSpeech.handleSpeak env s).state.recordings = s.recordings) ∧
    (env.confirmSpeakWithoutRecording = true →
      (WebSpeech.handleSpeak env s).spoken = [WebSpeech.buildUtterance s] ∧
      (WebSpeech.handleSpeak env s).recordingStarted = false ∧
      (WebSpeech.handleSpeak env s).state.recordings = s.recordings ∧
      (WebSpeech.utteranceOnEnd (WebSpeech.handleSpeak env s).recordingStarted env2
          (WebSpeech.handleSpeak env s).state).recordings = s.recordings ∧
      (WebSpeech.utteranceOnEnd (WebSpeech.handleSpeak env s).recordingStarted env2
          (WebSpeech.handleSpeak env s).state).isSpeaking = false) := by
  have h0 : (s.text == "") = false := beq_eq_false_iff_ne.mpr htext
  have hsr : WebSpeech.startRecording env s =
      (false, { s with hasMicPermission := some false }, [WebSpeech.micDeniedAlert]) := by
    simp [WebSpeech.startRecording, WebSpeech.requestMicrophonePermission, hmic, hdeny]
  refine ⟨by rw [hsr], by rw [hsr], by rw [hsr], ?_, ?_⟩
  · intro hconfirm
    simp [WebSpeech.handleSpeak, hsynth, hspeak, hrec, hsr, h0, hconfirm, hspeak]
  · intro hconfirm
    have hhs : WebSpeech.handleSpeak env s =
        { state := { s with hasMicPermission := some false, isSpeaking := true }
          alerts := [WebSpeech.micDeniedAlert]
          spoken := [WebSpeech.buildUtterance s]
          recordingStarted := false } := by
      simp [WebSpeech.handleSpeak, hsynth, hspeak, hrec, hsr, h0, hconfirm]
    rw [hhs]
    refine ⟨rfl, rfl, rfl, ?_, ?_⟩ <;>
      cases hm : s.mediaRecorder <;>
        simp [WebSpeech.utteranceOnEnd, hm]

theorem mic_denied_flow_witness :
    (WebSpeech.handleSpeak denyCaptureEnv micDeniedState).spoken = [] ∧
    (WebSpeech.startRecording denyCaptureEnv micDeniedState).1 = false :=
  ⟨((mic_denied_flow_spec denyCaptureEnv demoStopEnv micDeniedState (by decide) rfl rfl rfl
      (by decide) rfl).2.2.2.1 rfl).1,
   (mic_denied_flow_spec denyCaptureEnv demoStopEnv micDeniedState (by decide) rfl rfl rfl
      (by decide) rfl).1⟩

/-- C9: `deleteRecording(id)` removes exactly the entries whose
identifier equals `id`: the result is a sublist (relative order kept),
membership is unchanged for other identifiers (with multiplicity), and at
the component level no field other than `recordings` is modified. -/
theorem deleteRecording_frame_spec (rid : String) (l : List WebSpeech.RecordedItem)
    (s : Iapp.IappState) :
    List.Sublist (WebSpeech.deleteRecording rid l) l ∧
    (∀ r, r ∈ WebSpeech.deleteRecording rid l ↔ r ∈ l ∧ r.id ≠ rid) ∧
    (∀ r : WebSpeech.RecordedItem, r.id ≠ rid →
      (WebSpeech.deleteRecording rid l).count r = l.count r) ∧
    ((Iapp.deleteRecording rid s).text = s.text ∧
     (Iapp.deleteRecording rid s).apiKey = s.apiKey ∧
     (Iapp.deleteRecording rid s).isLoading = s.isLoading ∧
     (Iapp.deleteRecording rid s).selectedVoice = s.selectedVoice ∧
     List.Sublist (Iapp.deleteRecording rid s).recordings s.recordings ∧
     (∀ r, r ∈ (Iapp.deleteRecording rid s).recordings ↔
        r ∈ s.recordings ∧ r.id ≠ rid)) := by
  refine ⟨List.filter_sublist l, ?_, ?_, rfl, rfl, rfl, rfl, List.filter_sublist _, ?_⟩
  · intro r
    simp [WebSpeech.deleteRecording, List.mem_filter]
  · intro r hr
    exact List.count_filter (by simpa [bne] using hr)
  · intro r
    simp [Iapp.deleteRecording, List.mem_filter]

theorem deleteRecording_frame_witness :
    (WebSpeech.deleteRecording "rec-1" demoRecordings).count ⟨"rec-2", "b", "v", 2⟩ =
      demoRecordings.count ⟨"rec-2", "b", "v", 2⟩ :=
  (deleteRecording_frame_spec "rec-1" demoRecordings iappDemoState).2.2.1
    ⟨"rec-2", "b", "v", 2⟩ (by decide)

/-- C10: invoking the remote synthesis operation with empty text is a
complete no-op: the state (including the loading flag and the registry)
is unchanged, no HTTP request is issued and no alert is shown. -/
theorem convert_empty_noop_spec (env : Iapp.FetchEnv) (s : Iapp.IappState)
    (h : s.text = "") :
    Iapp.convertTextToSpeech env s = (s, [], []) := by
  simp [Iapp.convertTextToSpeech, h]

theorem convert_empty_noop_witness :
    Iapp.convertTextToSpeech fetchErrEnv emptyTextIappState = (emptyTextIappState, [], []) :=
  convert_empty_noop_spec fetchErrEnv emptyTextIappState rfl

end TTSApp
